import Mathlib

/-!
Verification of the folder-safety and message-triage engine of
`spamcop_forwarder.py` (the second, larger program version in the
repository), against its natural-language specification.

Python strings are modelled as `List Char` (`Str`); the embedding keeps the
source's function names and control structure. Machine-level concerns
(IMAP sockets, SMTP, the filesystem) are modelled by explicit parameters:
a fetch oracle for per-message IMAP responses, a `Bool` for the SMTP
dispatch outcome, and an `Option Str` for a file's contents (`none` =
missing or unreadable file).
-/

/-- Python strings are modelled as lists of characters. -/
abbrev Str := List Char

/-- The double-quote character (written by code point to keep sources clean). -/
def quoteChar : Char := Char.ofNat 34

/-- The single-quote character. -/
def apostropheChar : Char := Char.ofNat 39

/-- The backslash character. -/
def backslashChar : Char := Char.ofNat 92

/-- The newline character. -/
def newlineChar : Char := Char.ofNat 10

/-- Python `s.lower()` (ASCII case mapping, which covers every string the
program compares). -/
def pyLower (s : Str) : Str := s.map Char.toLower

/-- Python `s.upper()`. -/
def pyUpper (s : Str) : Str := s.map Char.toUpper

/-- Python `s.strip()`: drop whitespace from both ends. -/
def pyStrip (s : Str) : Str :=
  ((s.dropWhile Char.isWhitespace).reverse.dropWhile Char.isWhitespace).reverse

/-- Python `hay.startswith(needle)` (second argument is the candidate start). -/
def startsWithStr : Str → Str → Bool
  | _, [] => true
  | [], _ :: _ => false
  | c :: cs, d :: ds => c == d && startsWithStr cs ds

/-- Python `needle in hay` — contiguous substring test, `hay` first. -/
def containsStr : Str → Str → Bool
  | [], needle => needle.isEmpty
  | c :: t, needle => startsWithStr (c :: t) needle || containsStr t needle

/-- Python `hay.endswith(needle)`. -/
def endsWithStr (hay needle : Str) : Bool :=
  startsWithStr hay.reverse needle.reverse

/-- Python `s.replace(t, '')` for a one-character pattern: delete every
occurrence of the character. -/
def py_remove_char (t : Char) (s : Str) : Str := s.filter (fun c => c != t)

/-- Python `s.replace(t, r)` for one-character pattern and replacement. -/
def py_replace_char (t r : Char) (s : Str) : Str :=
  s.map (fun c => if c == t then r else c)

/-!
## Folder Classifier (`normalize_folder_name`, `is_forbidden_folder`,
`is_spam_folder`, source lines 586-720)
-/

/-- Embeds `normalize_folder_name` (line 586): uppercase, then the source's
chain of `.replace` calls — `"` removed, `'` removed, `\` replaced by `/`,
`[` removed, `]` removed, in that order. -/
def normalize_folder_name (folder_name : Str) : Str :=
  py_remove_char ']'
    (py_remove_char '['
      (py_replace_char backslashChar '/'
        (py_remove_char apostropheChar
          (py_remove_char quoteChar (pyUpper folder_name)))))

/-- Wraps a folder name in double quotes, as the quoted entries of
`FORBIDDEN_FOLDERS` are written in the source. -/
def quoted (s : Str) : Str := quoteChar :: s ++ [quoteChar]

/-- Embeds the `FORBIDDEN_FOLDERS` constant (lines 33-45). -/
def FORBIDDEN_FOLDERS : List Str :=
  [ String.toList "INBOX", String.toList "inbox", String.toList "Inbox",
    quoted (String.toList "INBOX"),
    String.toList "[Google Mail]/All Mail", quoted (String.toList "[Google Mail]/All Mail"),
    String.toList "[Google Mail]/Important", quoted (String.toList "[Google Mail]/Important"),
    String.toList "[Google Mail]/Sent Mail", quoted (String.toList "[Google Mail]/Sent Mail"),
    String.toList "[Google Mail]/Starred", quoted (String.toList "[Google Mail]/Starred"),
    String.toList "[Google Mail]/Drafts", quoted (String.toList "[Google Mail]/Drafts"),
    String.toList "[Gmail]/All Mail", quoted (String.toList "[Gmail]/All Mail"),
    String.toList "[Gmail]/Important", quoted (String.toList "[Gmail]/Important"),
    String.toList "[Gmail]/Sent Mail", quoted (String.toList "[Gmail]/Sent Mail"),
    String.toList "[Gmail]/Starred", quoted (String.toList "[Gmail]/Starred"),
    String.toList "[Gmail]/Drafts", quoted (String.toList "[Gmail]/Drafts") ]

/-- The fixed `forbidden_patterns` list inside `is_forbidden_folder`
(lines 703-709). -/
def forbidden_patterns : List Str :=
  [ String.toList "ALL MAIL", String.toList "IMPORTANT",
    String.toList "SENT MAIL", String.toList "STARRED", String.toList "DRAFTS" ]

/-- Embeds `is_forbidden_folder` (lines 689-715): the source's sequence of
early-return `True` checks written as one disjunction. -/
def is_forbidden_folder (folder_name : Str) : Bool :=
  let normalized := normalize_folder_name folder_name
  FORBIDDEN_FOLDERS.contains folder_name
  || normalized == String.toList "INBOX"
  || (String.toList "/INBOX").isSuffixOf normalized
  || (String.toList "INBOX/").isPrefixOf normalized
  || forbidden_patterns.any (fun p => containsStr normalized p)

/-- Embeds `is_spam_folder` (lines 717-720). -/
def is_spam_folder (folder_name : Str) : Bool :=
  let normalized := normalize_folder_name folder_name
  containsStr normalized (String.toList "SPAM")
  || containsStr normalized (String.toList "JUNK")

/-- The normalized-name condition of `is_forbidden_folder`'s second and third
checks (everything after the exact-membership test, lines 695-713). -/
def norm_forbidden_cond (s : Str) : Bool :=
  s == String.toList "INBOX"
  || (String.toList "/INBOX").isSuffixOf s
  || (String.toList "INBOX/").isPrefixOf s
  || forbidden_patterns.any (fun p => containsStr s p)

/-- The per-folder acceptance gate applied at every selection checkpoint
(lines 1757-1778, 1860-1876, 1891-1933): a folder is selectable only when
`is_forbidden_folder` rejects it as forbidden — checked first — and
`is_spam_folder` accepts it. -/
def folder_passes_safety_checks (folder_name : Str) : Bool :=
  !is_forbidden_folder folder_name && is_spam_folder folder_name

theorem is_forbidden_of_norm_cond (n : Str)
    (h : norm_forbidden_cond (normalize_folder_name n) = true) :
    is_forbidden_folder n = true := by
  simp only [is_forbidden_folder, norm_forbidden_cond, Bool.or_eq_true] at h ⊢
  tauto

/-- C1 counterexample: the folder name "INBOX/Spam" is classified forbidden
(its normalized form starts with "INBOX/") yet `is_spam_folder` still returns
true for it (its normalized form contains "SPAM"), contradicting the claim
that forbidden classification forces `is_spam_folder` to return false. -/
theorem forbidden_folder_can_be_spam_folder :
    is_forbidden_folder (String.toList "INBOX/Spam") = true
    ∧ is_spam_folder (String.toList "INBOX/Spam") = true := by decide

/-- C1 (amended): `is_spam_folder` does not consult `is_forbidden_folder`;
forbidden classification wins at the selection gate instead: whenever
`is_forbidden_folder n` is true, the acceptance check applied at every
folder-selection checkpoint rejects n. -/
theorem forbidden_wins_at_selection_gate (n : Str)
    (h : is_forbidden_folder n = true) :
    folder_passes_safety_checks n = false := by
  simp [folder_passes_safety_checks, h]

/-- Witness for C1 (amended) at the concrete folder name "INBOX/Spam". -/
theorem forbidden_wins_at_selection_gate_witness :
    folder_passes_safety_checks (String.toList "INBOX/Spam") = false :=
  forbidden_wins_at_selection_gate (String.toList "INBOX/Spam") (by decide)

/-- C2: every folder name that normalizes like a member of the forbidden set
(hence any member itself, and any variant differing only by quoting, case or
bracket style, all of which `normalize_folder_name` erases) is classified
forbidden; and any name whose normalized form equals "INBOX", ends with
"/INBOX", starts with "INBOX/", or contains one of the markers ALL MAIL,
IMPORTANT, SENT MAIL, STARRED, DRAFTS is classified forbidden. -/
theorem forbidden_set_closed_under_normalization :
    (∀ n m : Str, m ∈ FORBIDDEN_FOLDERS →
      normalize_folder_name n = normalize_folder_name m →
      is_forbidden_folder n = true)
    ∧ (∀ n : Str, norm_forbidden_cond (normalize_folder_name n) = true →
      is_forbidden_folder n = true) := by
  constructor
  · intro n m hm hn
    have hall : FORBIDDEN_FOLDERS.all
        (fun x => norm_forbidden_cond (normalize_folder_name x)) = true := by decide
    have hc := List.all_eq_true.mp hall m hm
    exact is_forbidden_of_norm_cond n (by rw [hn]; exact hc)
  · exact is_forbidden_of_norm_cond

/-- Witness for C2: `"inbox"` (quoting and case variant of the member INBOX)
is classified forbidden. -/
theorem forbidden_set_closed_under_normalization_witness :
    is_forbidden_folder (quoted (String.toList "inbox")) = true :=
  forbidden_set_closed_under_normalization.1
    (quoted (String.toList "inbox")) (String.toList "INBOX") (by decide) (by decide)

/-- The claimed normalization (from the spec's words, for comparison):
uppercase, then DELETE each of the five characters double-quote,
single-quote, backslash, left bracket, right bracket. -/
def normalize_folder_name_spec_claim (s : Str) : Str :=
  (pyUpper s).filter (fun c =>
    !(c == quoteChar || c == apostropheChar || c == backslashChar
      || c == '[' || c == ']'))

/-- The single-pass characterization of what the code actually does per
character (after uppercasing): quote, apostrophe and brackets are deleted,
backslash is replaced by a forward slash, all else kept. -/
def normalize_char_action (c : Char) : Option Char :=
  if c == quoteChar || c == apostropheChar || c == '[' || c == ']' then none
  else if c == backslashChar then some '/'
  else some c

/-- C8 counterexample: on the input "a\b" the code's normalization yields
"A/B" (the backslash is replaced by a slash, not deleted), differing from the
claimed uppercase-and-delete normalization, which yields "AB". -/
theorem normalize_backslash_not_deleted :
    normalize_folder_name ['a', backslashChar, 'b']
      ≠ normalize_folder_name_spec_claim ['a', backslashChar, 'b']
    ∧ normalize_folder_name ['a', backslashChar, 'b'] = ['A', '/', 'B'] := by decide

/-- C8 (amended): folder-name normalization uppercases the input and then,
character by character, deletes double-quote, single-quote and both brackets
and replaces each backslash by a forward slash, changing nothing else. -/
theorem normalize_folder_name_characterized (s : Str) :
    normalize_folder_name s = (pyUpper s).filterMap normalize_char_action := by
  unfold normalize_folder_name
  generalize pyUpper s = l
  induction l with
  | nil => rfl
  | cons c t ih =>
    by_cases h1 : c = quoteChar
    · subst h1
      simpa +decide [py_remove_char, py_replace_char, normalize_char_action,
        quoteChar, apostropheChar, backslashChar] using ih
    · by_cases h2 : c = apostropheChar
      · subst h2
        simpa +decide [py_remove_char, py_replace_char, normalize_char_action,
          quoteChar, apostropheChar, backslashChar] using ih
      · by_cases h3 : c = backslashChar
        · subst h3
          simpa +decide [py_remove_char, py_replace_char, normalize_char_action,
            quoteChar, apostropheChar, backslashChar] using ih
        · by_cases h4 : c = '['
          · subst h4
            simpa +decide [py_remove_char, py_replace_char, normalize_char_action,
              quoteChar, apostropheChar, backslashChar] using ih
          · by_cases h5 : c = ']'
            · subst h5
              simpa +decide [py_remove_char, py_replace_char, normalize_char_action,
                quoteChar, apostropheChar, backslashChar] using ih
            · simpa [py_remove_char, py_replace_char, normalize_char_action,
                h1, h2, h3, h4, h5] using ih

/-!
## Dedup Registry (`load_sent_uids`, `save_sent_uids`, `add_sent_uids`,
source lines 590-626)

The registry file's contents are an `Option Str`: `none` models a missing or
unreadable file (the source swallows both and returns an empty set).
-/

/-- Line iteration over a file's contents, as Python's `for line in f` sees it
once the trailing newline of each line is stripped: split at every newline
character. A final fragment after the last newline (usually empty) is one
more line. -/
def splitLines : Str → List Str
  | [] => [[]]
  | c :: rest =>
    if c = newlineChar then [] :: splitLines rest
    else
      match splitLines rest with
      | [] => [[]]
      | line :: lines => (c :: line) :: lines

/-- Embeds `load_sent_uids` (lines 590-607): each line is stripped and, if
non-empty, added to the set; a missing or unreadable file yields the empty
set. -/
def load_sent_uids : Option Str → Finset Str
  | none => ∅
  | some content =>
    (((splitLines content).map pyStrip).filter (fun uid => !uid.isEmpty)).toFinset

/-- Embeds `save_sent_uids` (lines 609-620): write each uid of the sorted set
followed by a newline. -/
def save_sent_uids (sent_uids : Finset Str) : Str :=
  List.flatten ((Finset.sort (· ≤ ·) sent_uids).map (fun uid => uid ++ [newlineChar]))

/-- Embeds `add_sent_uids` (lines 622-626): load, union, save; the result is
the new file contents. -/
def add_sent_uids (new_uids : List Str) (store : Option Str) : Str :=
  save_sent_uids (load_sent_uids store ∪ new_uids.toFinset)

theorem splitLines_ne_nil (s : Str) : splitLines s ≠ [] := by
  induction s with
  | nil => simp [splitLines]
  | cons c rest ih =>
    by_cases h : c = newlineChar
    · simp [splitLines, h]
    · simp only [splitLines, if_neg h]
      cases hs : splitLines rest with
      | nil => exact absurd hs ih
      | cons line lines => simp

theorem splitLines_append_newline (u r : Str) (h : newlineChar ∉ u) :
    splitLines (u ++ newlineChar :: r) = u :: splitLines r := by
  induction u with
  | nil => simp [splitLines]
  | cons c t ih =>
    have hc : c ≠ newlineChar := fun e => h (e ▸ List.mem_cons_self c t)
    have ht : newlineChar ∉ t := fun m => h (List.mem_cons_of_mem c m)
    have ih2 : splitLines (t.append (newlineChar :: r)) = t :: splitLines r := ih ht
    simp only [List.cons_append, splitLines, if_neg hc, ih2]

theorem splitLines_flatten (l : List Str) (h : ∀ u ∈ l, newlineChar ∉ u) :
    splitLines (List.flatten (l.map (fun u => u ++ [newlineChar]))) = l ++ [[]] := by
  induction l with
  | nil => rfl
  | cons u t ih =>
    have hu : newlineChar ∉ u := h u (List.mem_cons_self u t)
    have ht : ∀ v ∈ t, newlineChar ∉ v := fun v hv => h v (List.mem_cons_of_mem u hv)
    simp only [List.map_cons, List.flatten_cons, List.append_assoc,
      List.singleton_append]
    rw [splitLines_append_newline u _ hu, ih ht]
    rfl

/-- Roundtrip of the registry store: saving a set of well-formed uids and
loading the result returns the same set. -/
theorem load_after_save (S : Finset Str)
    (h : ∀ u ∈ S, pyStrip u = u ∧ u ≠ [] ∧ newlineChar ∉ u) :
    load_sent_uids (some (save_sent_uids S)) = S := by
  have hsort : ∀ u ∈ Finset.sort (· ≤ ·) S, pyStrip u = u ∧ u ≠ [] ∧ newlineChar ∉ u :=
    fun u hu => h u ((Finset.mem_sort (· ≤ ·)).mp hu)
  simp only [load_sent_uids, save_sent_uids]
  rw [splitLines_flatten _ (fun u hu => (hsort u hu).2.2)]
  rw [List.map_append, List.filter_append]
  have hmap : (Finset.sort (· ≤ ·) S).map pyStrip = Finset.sort (· ≤ ·) S := by
    rw [List.map_congr_left (fun u hu => (hsort u hu).1)]
    exact List.map_id _
  rw [hmap]
  have hfil : (Finset.sort (· ≤ ·) S).filter (fun uid => !uid.isEmpty)
      = Finset.sort (· ≤ ·) S := by
    rw [List.filter_eq_self]
    intro u hu
    simpa [List.isEmpty_iff] using (hsort u hu).2.1
  rw [hfil]
  have htail : (([[]] : List Str).map pyStrip).filter (fun uid => !uid.isEmpty) = [] := by
    rfl
  rw [htail, List.append_nil]
  exact Finset.sort_toFinset _ S

/-- C9 counterexample: for the set holding the single uid " a" (a leading
space), load after save returns {"a"}, not {" a"}: the claimed roundtrip
fails for uids that are not fixed by stripping. -/
theorem load_after_save_not_universal :
    load_sent_uids (some (save_sent_uids {[' ', 'a']})) ≠ ({[' ', 'a']} : Finset Str) := by
  have hs : save_sent_uids {[' ', 'a']} = [' ', 'a', newlineChar] := by
    unfold save_sent_uids
    rw [Finset.sort_singleton]
    rfl
  rw [hs]
  decide

/-- C9 (amended): loading a missing or unreadable store yields the empty set;
add(new) = save(load() ∪ new); save persists the set as a newline-delimited
sorted list of the exact uid strings; and for every saved set S whose uids
are non-empty, newline-free and unchanged by whitespace stripping, load after
save(S) returns S. -/
theorem sent_uid_registry_algebra :
    load_sent_uids none = ∅
    ∧ (∀ (new_uids : List Str) (store : Option Str),
        add_sent_uids new_uids store
          = save_sent_uids (load_sent_uids store ∪ new_uids.toFinset))
    ∧ (∀ S : Finset Str, ∃ l : List Str, l.Sorted (· ≤ ·) ∧ l.toFinset = S
        ∧ save_sent_uids S = List.flatten (l.map (fun uid => uid ++ [newlineChar])))
    ∧ (∀ S : Finset Str, (∀ u ∈ S, pyStrip u = u ∧ u ≠ [] ∧ newlineChar ∉ u) →
        load_sent_uids (some (save_sent_uids S)) = S) := by
  refine ⟨rfl, fun _ _ => rfl, fun S => ?_, load_after_save⟩
  exact ⟨Finset.sort (· ≤ ·) S, Finset.sort_sorted _ S, Finset.sort_toFinset _ S, rfl⟩

/-- Witness for C9 (amended) at the singleton registry set {"1"}. -/
theorem sent_uid_registry_algebra_witness :
    load_sent_uids (some (save_sent_uids {['1']})) = ({['1']} : Finset Str) :=
  sent_uid_registry_algebra.2.2.2 {['1']} (by decide)

/-!
## Time-Window Search precise filter (`filter_messages_by_time`,
source lines 1085-1133)

The IMAP interaction for one uid is modelled by a fetch oracle returning
which of the source's four outcomes happened; a successfully parsed
INTERNALDATE is its UTC timestamp in seconds (an integer, as the comparison
is a plain datetime order comparison).
-/

/-- Outcome of fetching and parsing one message's INTERNALDATE. -/
inductive InternalDateFetch where
  /-- FETCH returned non-OK or empty data, or raised (lines 1123-1129). -/
  | fetchFailed : InternalDateFetch
  /-- `parse_internal_date` found no date string (lines 1120-1122). -/
  | noDateString : InternalDateFetch
  /-- `parsedate_to_datetime` raised or returned nothing (lines 1113-1119). -/
  | unparsable : InternalDateFetch
  /-- Parsed fine; the argument is the message's UTC timestamp. -/
  | parsed : Int → InternalDateFetch
deriving DecidableEq

/-- Whether one uid is kept by the loop body of `filter_messages_by_time`:
kept when its timestamp is at least the cutoff, and kept on every
cannot-fetch / cannot-find / cannot-parse path. -/
def keep_message (cutoff_time_utc : Int) : InternalDateFetch → Bool
  | .parsed msg_date_utc => decide (cutoff_time_utc ≤ msg_date_utc)
  | _ => true

/-- Embeds `filter_messages_by_time` (lines 1085-1133): iterate over the uid
list, appending each kept uid. -/
def filter_messages_by_time (fetch : Str → InternalDateFetch)
    (cutoff_time_utc : Int) : List Str → List Str
  | [] => []
  | uid :: rest =>
    if keep_message cutoff_time_utc (fetch uid) then
      uid :: filter_messages_by_time fetch cutoff_time_utc rest
    else
      filter_messages_by_time fetch cutoff_time_utc rest

theorem filter_messages_by_time_eq_filter (fetch : Str → InternalDateFetch)
    (cutoff : Int) (uids : List Str) :
    filter_messages_by_time fetch cutoff uids
      = uids.filter (fun uid => keep_message cutoff (fetch uid)) := by
  induction uids with
  | nil => rfl
  | cons uid rest ih =>
    cases hk : keep_message cutoff (fetch uid) with
    | true => simp [filter_messages_by_time, List.filter_cons, hk, ih]
    | false => simp [filter_messages_by_time, List.filter_cons, hk, ih]

/-- C6: for a uid whose INTERNALDATE parses to UTC timestamp t, the filter
retains it exactly when t is at least the cutoff (boundary-inclusive >=). -/
theorem time_filter_boundary_inclusive (fetch : Str → InternalDateFetch)
    (cutoff : Int) (uids : List Str) (uid : Str) (t : Int)
    (h : fetch uid = .parsed t) :
    uid ∈ filter_messages_by_time fetch cutoff uids ↔ (uid ∈ uids ∧ cutoff ≤ t) := by
  rw [filter_messages_by_time_eq_filter, List.mem_filter]
  simp [keep_message, h]

/-- Witness for C6: with cutoff 100, a message stamped exactly 100 is
retained and a message stamped 99 (one second older) is not. -/
theorem time_filter_boundary_inclusive_witness :
    (['1'] ∈ filter_messages_by_time (fun _ => .parsed 100) 100 [['1']]
      ↔ (['1'] ∈ [(['1'] : Str)] ∧ (100 : Int) ≤ 100))
    ∧ (['1'] ∈ filter_messages_by_time (fun _ => .parsed 99) 100 [['1']]
      ↔ (['1'] ∈ [(['1'] : Str)] ∧ (100 : Int) ≤ 99)) :=
  ⟨time_filter_boundary_inclusive (fun _ => .parsed 100) 100 [['1']] ['1'] 100 rfl,
   time_filter_boundary_inclusive (fun _ => .parsed 99) 100 [['1']] ['1'] 99 rfl⟩

/-- C7: the filter fails open — a uid whose INTERNALDATE cannot be fetched,
found, or parsed is retained. -/
theorem time_filter_fails_open (fetch : Str → InternalDateFetch)
    (cutoff : Int) (uids : List Str) (uid : Str)
    (h : fetch uid = .fetchFailed ∨ fetch uid = .noDateString
      ∨ fetch uid = .unparsable)
    (hm : uid ∈ uids) :
    uid ∈ filter_messages_by_time fetch cutoff uids := by
  rw [filter_messages_by_time_eq_filter, List.mem_filter]
  refine ⟨hm, ?_⟩
  rcases h with h | h | h <;> simp [keep_message, h]

/-- Witness for C7 at a concrete unparsable-timestamp message. -/
theorem time_filter_fails_open_witness :
    ['2'] ∈ filter_messages_by_time (fun _ => .unparsable) 100 [['2']] :=
  time_filter_fails_open (fun _ => .unparsable) 100 [['2']] ['2']
    (Or.inr (Or.inr rfl)) (List.mem_singleton.mpr rfl)

/-- C10: the precise time filter returns a subsequence of its input — every
retained uid occurs in the input, in the same relative order, nothing is
introduced, each input occurrence yields at most one output occurrence, and
the output is never longer than the input. -/
theorem time_filter_returns_subsequence (fetch : Str → InternalDateFetch)
    (cutoff : Int) (uids : List Str) :
    (filter_messages_by_time fetch cutoff uids).Sublist uids
    ∧ (filter_messages_by_time fetch cutoff uids).length ≤ uids.length := by
  rw [filter_messages_by_time_eq_filter]
  exact ⟨List.filter_sublist uids, (List.filter_sublist uids).length_le⟩

/-!
## Triage Filter (`is_email_excluded`, `is_email_force_included`,
`analyze_message_headers`, source lines 1156-1380) and keyword-conflict
validation (`validate_keyword_conflicts`, lines 416-454)

The operator-supplied rule lists (module-level configuration in the source)
are passed explicitly as a `Config`.
-/

/-- The three operator-supplied rule lists read from the configuration
(lines 469-471). -/
structure Config where
  EXCLUDED_SENDERS : List Str
  EXCLUDED_SUBJECT_KEYWORDS : List Str
  FORCE_INCLUDE_KEYWORDS : List Str

/-- Python `s.split('@', 1)[1]`: everything after the first occurrence of the
character. -/
def after_first_char (c : Char) : Str → Str
  | [] => []
  | x :: t => if x == c then t else after_first_char c t

/-- The sender-domain extraction of `is_email_excluded` (lines 1172-1174):
the part after the first `@` of the lowered sender, else the empty string. -/
def sender_domain_of (sender_lower : Str) : Str :=
  if sender_lower.contains '@' then after_first_char '@' sender_lower else []

/-- One iteration of the `EXCLUDED_SENDERS` loop of `is_email_excluded`
(lines 1166-1196): `@domain` entries match the sender's domain exactly or as
a `.`-separated suffix (or anywhere in the sender, for backwards
compatibility); `.domain` entries match a domain suffix; other entries match
the sender exactly or as a substring. Empty entries are skipped. -/
def excluded_sender_matches (sender_lower : Str) (excluded_entry : Str) : Bool :=
  let excluded_lower := pyStrip (pyLower excluded_entry)
  if excluded_lower.isEmpty then false
  else
    let sender_domain := sender_domain_of sender_lower
    match excluded_lower with
    | '@' :: excluded_domain =>
      (!sender_domain.isEmpty
        && (sender_domain == excluded_domain
          || endsWithStr sender_domain ('.' :: excluded_domain)))
      || containsStr sender_lower excluded_lower
    | '.' :: rest =>
      !sender_domain.isEmpty && endsWithStr sender_domain ('.' :: rest)
    | _ =>
      excluded_lower == sender_lower || containsStr sender_lower excluded_lower

/-- One iteration of a subject/body keyword loop (exclusion lines 1199-1210,
force-include lines 1262-1273, both with the same shape): the lowered,
stripped keyword matches as a substring of the lowered subject, or of the
lowered body when a body is present; empty keywords are skipped. -/
def keyword_phrase_matches (subject_lower body_lower : Str) (keyword : Str) : Bool :=
  let keyword_lower := pyStrip (pyLower keyword)
  if keyword_lower.isEmpty then false
  else
    containsStr subject_lower keyword_lower
    || (!body_lower.isEmpty && containsStr body_lower keyword_lower)

/-- Embeds `is_email_excluded` (lines 1156-1212), keeping the boolean verdict
(the source also returns a human-readable reason, irrelevant to control
flow). -/
def is_email_excluded (cfg : Config) (sender subject body_text : Str) : Bool :=
  let sender_lower := pyLower sender
  let subject_lower := pyLower subject
  let body_lower := pyLower body_text
  cfg.EXCLUDED_SENDERS.any (excluded_sender_matches sender_lower)
  || cfg.EXCLUDED_SUBJECT_KEYWORDS.any (keyword_phrase_matches subject_lower body_lower)

/-- Embeds `is_email_force_included` (lines 1248-1275): matched against
subject and body only — the function does not receive the sender address at
all. -/
def is_email_force_included (cfg : Config) (subject body_text : Str) : Bool :=
  if cfg.FORCE_INCLUDE_KEYWORDS.isEmpty then false
  else
    let subject_lower := pyLower subject
    let body_lower := pyLower body_text
    cfg.FORCE_INCLUDE_KEYWORDS.any (keyword_phrase_matches subject_lower body_lower)

/-- The body text `analyze_message_headers` feeds the keyword checks
(lines 1321-1331): the fetched body when any keyword rule exists, otherwise
the empty string. -/
def triage_body_text (cfg : Config) (fetched_body : Str) : Str :=
  if !cfg.FORCE_INCLUDE_KEYWORDS.isEmpty || !cfg.EXCLUDED_SUBJECT_KEYWORDS.isEmpty
  then fetched_body else []

/-- The per-message keep/drop decision of `analyze_message_headers`
(lines 1333-1349): force-include is checked first; when it matches the
exclusion check is skipped entirely; otherwise an exclusion match drops the
message. -/
def triage_keeps_message (cfg : Config) (sender subject fetched_body : Str) : Bool :=
  let body_text := triage_body_text cfg fetched_body
  if is_email_force_included cfg subject body_text then true
  else !(is_email_excluded cfg sender subject body_text)

/-- C4: force-include is evaluated first and unconditionally overrides
exclusion — whatever the sender is, a force-included message is kept (the
sender is not an argument of `is_email_force_included` at all); and when no
force-include keyword matches, the message is kept exactly when no exclusion
rule (sender, subject or body) matches. -/
theorem force_include_overrides_exclusion (cfg : Config)
    (sender subject fetched_body : Str) :
    (is_email_force_included cfg subject (triage_body_text cfg fetched_body) = true →
      triage_keeps_message cfg sender subject fetched_body = true)
    ∧ (is_email_force_included cfg subject (triage_body_text cfg fetched_body) = false →
      triage_keeps_message cfg sender subject fetched_body
        = !(is_email_excluded cfg sender subject (triage_body_text cfg fetched_body))) := by
  constructor
  · intro h
    simp [triage_keeps_message, h]
  · intro h
    simp [triage_keeps_message, h]

/-- Witness for C4: a message whose sender matches an exclusion domain but
whose subject contains a force-include keyword is retained. -/
theorem force_include_overrides_exclusion_witness :
    is_email_excluded
      ⟨[String.toList "@spammer.com"], [], [String.toList "urgent"]⟩
      (String.toList "bad@spammer.com") (String.toList "urgent offer") [] = true
    ∧ triage_keeps_message
      ⟨[String.toList "@spammer.com"], [], [String.toList "urgent"]⟩
      (String.toList "bad@spammer.com") (String.toList "urgent offer") [] = true :=
  ⟨by decide,
    (force_include_overrides_exclusion
      ⟨[String.toList "@spammer.com"], [], [String.toList "urgent"]⟩
      (String.toList "bad@spammer.com") (String.toList "urgent offer") []).1 (by decide)⟩

/-- The keyword normalization of `validate_keyword_conflicts`
(lines 423-424): keep the keywords that are non-empty and non-blank, each
lowered and stripped. -/
def normalized_nonempty_keywords (keyword_list : List Str) : List Str :=
  (keyword_list.filter (fun kw => !kw.isEmpty && !(pyStrip kw).isEmpty)).map
    (fun kw => pyStrip (pyLower kw))

/-- Embeds `validate_keyword_conflicts` (lines 416-454) as its decision:
`true` means conflicts were found and the function raises a fatal
configuration error. The first disjunct is the exact-match loop
(lines 427-429), the second the substring double loop (lines 432-439). -/
def validate_keyword_conflicts (excluded_list force_list : List Str) : Bool :=
  let excluded_keywords := normalized_nonempty_keywords excluded_list
  let force_include_keywords := normalized_nonempty_keywords force_list
  excluded_keywords.any (fun e => force_include_keywords.any (fun fk => e == fk))
  || excluded_keywords.any (fun e => force_include_keywords.any (fun fk =>
      (containsStr fk e && e != fk) || (containsStr e fk && e != fk)))

theorem mem_normalized_nonempty_keywords (l : List Str) (e : Str) :
    e ∈ normalized_nonempty_keywords l
      ↔ ∃ kw ∈ l, kw ≠ [] ∧ pyStrip kw ≠ [] ∧ pyStrip (pyLower kw) = e := by
  unfold normalized_nonempty_keywords
  simp only [List.mem_map, List.mem_filter, Bool.and_eq_true, Bool.not_eq_true',
    List.isEmpty_eq_false, ne_eq]
  constructor
  · rintro ⟨kw, ⟨hkw, h1, h2⟩, rfl⟩
    exact ⟨kw, hkw, h1, h2, rfl⟩
  · rintro ⟨kw, hkw, h1, h2, rfl⟩
    exact ⟨kw, ⟨hkw, h1, h2⟩, rfl⟩

/-- C5 counterexample: with exclusion list [" "] and force-include list
["x"], the normalized exclusion keyword "" is a substring of the normalized
force-include keyword "x" — the claim demands rejection — yet validation
passes, because blank keywords are filtered out before comparison. -/
theorem keyword_conflict_blank_keyword_not_rejected :
    validate_keyword_conflicts [[' ']] [['x']] = false
    ∧ containsStr (pyStrip (pyLower ['x'])) (pyStrip (pyLower [' '])) = true := by
  decide

/-- C5 (amended): validation fails (raises the fatal configuration error) if
and only if some exclusion keyword and some force-include keyword, each
non-empty and not whitespace-only, are equal or one is a substring of the
other after lowercasing and stripping; in particular exclusion
["newsletter"] with force-include ["newsletter deals"] is rejected. -/
theorem keyword_conflict_validation_iff :
    (∀ excluded_list force_list : List Str,
      validate_keyword_conflicts excluded_list force_list = true ↔
        ∃ x ∈ excluded_list, ∃ y ∈ force_list,
          x ≠ [] ∧ pyStrip x ≠ [] ∧ y ≠ [] ∧ pyStrip y ≠ []
          ∧ (pyStrip (pyLower x) = pyStrip (pyLower y)
            ∨ containsStr (pyStrip (pyLower y)) (pyStrip (pyLower x)) = true
            ∨ containsStr (pyStrip (pyLower x)) (pyStrip (pyLower y)) = true))
    ∧ validate_keyword_conflicts
        [String.toList "newsletter"] [String.toList "newsletter deals"] = true := by
  constructor
  · intro excluded_list force_list
    unfold validate_keyword_conflicts
    simp only [List.any_eq_true, Bool.or_eq_true, Bool.and_eq_true, beq_iff_eq,
      bne_iff_ne, ne_eq, mem_normalized_nonempty_keywords]
    constructor
    · rintro (⟨e, ⟨x, hx, hx1, hx2, rfl⟩, fk, ⟨y, hy, hy1, hy2, rfl⟩, heq⟩ |
              ⟨e, ⟨x, hx, hx1, hx2, rfl⟩, fk, ⟨y, hy, hy1, hy2, rfl⟩, hsub⟩)
      · exact ⟨x, hx, y, hy, hx1, hx2, hy1, hy2, Or.inl heq⟩
      · rcases hsub with ⟨hc, _⟩ | ⟨hc, _⟩
        · exact ⟨x, hx, y, hy, hx1, hx2, hy1, hy2, Or.inr (Or.inl hc)⟩
        · exact ⟨x, hx, y, hy, hx1, hx2, hy1, hy2, Or.inr (Or.inr hc)⟩
    · rintro ⟨x, hx, y, hy, hx1, hx2, hy1, hy2, hdisj⟩
      by_cases heq : pyStrip (pyLower x) = pyStrip (pyLower y)
      · exact Or.inl ⟨_, ⟨x, hx, hx1, hx2, rfl⟩, _, ⟨y, hy, hy1, hy2, rfl⟩, heq⟩
      · rcases hdisj with h | h | h
        · exact absurd h heq
        · exact Or.inr ⟨_, ⟨x, hx, hx1, hx2, rfl⟩, _, ⟨y, hy, hy1, hy2, rfl⟩,
            Or.inl ⟨h, heq⟩⟩
        · exact Or.inr ⟨_, ⟨x, hx, hx1, hx2, rfl⟩, _, ⟨y, hy, hy1, hy2, rfl⟩,
            Or.inr ⟨h, heq⟩⟩
  · decide

/-!
## Forwarding Gate & Dispatcher (`forward_to_spamcop`, `_send_to_spamcop`,
source lines 2222-2382)

Environment interaction is passed explicitly: whether the first-run flag
file exists, the simulation flag, the operator's yes/no answer to the
first-run confirmation prompt, and the outcome `_send_to_spamcop` would
report (`true` = the SMTP send succeeded, `false` = it raised and the
function returned `False`). The function's effect on the sent-uid registry
file is returned as the new file contents.
-/

/-- One spam candidate as the dictionaries built by `analyze_message_headers`
reach `forward_to_spamcop`; only the optional `'uid'` entry affects the
registry (line 2250 guards on its presence). -/
structure Candidate where
  uid : Option Str

/-- Embeds `forward_to_spamcop` (lines 2222-2254) as its effect on the
sent-uid registry store: on the first non-simulated run ever a declined
confirmation returns early; in simulation mode nothing is sent and nothing
is saved; otherwise `_send_to_spamcop` runs and, exactly when it succeeds
with a non-empty candidate list whose uid extraction is non-empty,
`add_sent_uids` rewrites the registry. -/
def forward_to_spamcop (flag_exists simulation confirm_response dispatch_success : Bool)
    (spam_candidates : List Candidate) (registry : Option Str) : Option Str :=
  let is_first_run := !flag_exists && !simulation
  if is_first_run && !confirm_response then registry
  else if simulation then registry
  else if dispatch_success && !spam_candidates.isEmpty then
    let sent_uids := spam_candidates.filterMap Candidate.uid
    if !sent_uids.isEmpty then some (add_sent_uids sent_uids registry)
    else registry
  else registry

theorem forward_to_spamcop_characterization
    (flag_exists simulation confirm_response dispatch_success : Bool)
    (spam_candidates : List Candidate) (registry : Option Str) :
    forward_to_spamcop flag_exists simulation confirm_response dispatch_success
        spam_candidates registry
      = if (!simulation && dispatch_success && (flag_exists || confirm_response)
            && !spam_candidates.isEmpty
            && !(spam_candidates.filterMap Candidate.uid).isEmpty) = true
        then some (add_sent_uids (spam_candidates.filterMap Candidate.uid) registry)
        else registry := by
  cases flag_exists <;> cases simulation <;> cases confirm_response <;>
    cases dispatch_success <;>
      by_cases hc : spam_candidates = [] <;>
        by_cases hu : spam_candidates.filterMap Candidate.uid = [] <;>
          simp_all [forward_to_spamcop, List.isEmpty_iff]

/-- C3: the sent-uid registry is mutated only on the successful-dispatch
path — simulation mode, a failed SMTP dispatch, and an empty candidate list
each leave the store unchanged; any change at all can only be the
`add_sent_uids` rewrite after a real successful dispatch; and on a real
successful dispatch with candidates the loaded registry gains exactly the
forwarded candidates' uids (stated for well-formed uid strings, which every
real IMAP uid is). -/
theorem registry_mutated_only_on_successful_dispatch
    (flag_exists simulation confirm_response dispatch_success : Bool)
    (spam_candidates : List Candidate) (registry : Option Str) :
    (simulation = true →
      forward_to_spamcop flag_exists simulation confirm_response dispatch_success
        spam_candidates registry = registry)
    ∧ (dispatch_success = false →
      forward_to_spamcop flag_exists simulation confirm_response dispatch_success
        spam_candidates registry = registry)
    ∧ (spam_candidates = [] →
      forward_to_spamcop flag_exists simulation confirm_response dispatch_success
        spam_candidates registry = registry)
    ∧ (forward_to_spamcop flag_exists simulation confirm_response dispatch_success
        spam_candidates registry ≠ registry →
      simulation = false ∧ dispatch_success = true
      ∧ spam_candidates.filterMap Candidate.uid ≠ []
      ∧ forward_to_spamcop flag_exists simulation confirm_response dispatch_success
          spam_candidates registry
        = some (add_sent_uids (spam_candidates.filterMap Candidate.uid) registry))
    ∧ (simulation = false → dispatch_success = true →
      (flag_exists = false → confirm_response = true) →
      spam_candidates.filterMap Candidate.uid ≠ [] →
      (∀ u ∈ spam_candidates.filterMap Candidate.uid,
        pyStrip u = u ∧ u ≠ [] ∧ newlineChar ∉ u) →
      (∀ u ∈ load_sent_uids registry,
        pyStrip u = u ∧ u ≠ [] ∧ newlineChar ∉ u) →
      load_sent_uids (forward_to_spamcop flag_exists simulation confirm_response
          dispatch_success spam_candidates registry)
        = load_sent_uids registry ∪ (spam_candidates.filterMap Candidate.uid).toFinset) := by
  simp only [forward_to_spamcop_characterization]
  refine ⟨?_, ?_, ?_, ?_, ?_⟩
  · intro hs; simp [hs]
  · intro hd; simp [hd]
  · intro hc; simp [hc]
  · intro hne
    cases hb : (!simulation && dispatch_success && (flag_exists || confirm_response)
        && !spam_candidates.isEmpty
        && !(spam_candidates.filterMap Candidate.uid).isEmpty) with
    | false => rw [hb] at hne; simp at hne
    | true =>
      simp only [Bool.and_eq_true, Bool.not_eq_true', Bool.or_eq_true,
        List.isEmpty_eq_false] at hb
      exact ⟨hb.1.1.1.1, hb.1.1.1.2, hb.2, by simp⟩
  · intro hs hd hfc hu hnew hreg
    have hcand : spam_candidates ≠ [] := by
      intro hc; rw [hc] at hu; simp at hu
    have hcond : (!simulation && dispatch_success && (flag_exists || confirm_response)
        && !spam_candidates.isEmpty
        && !(spam_candidates.filterMap Candidate.uid).isEmpty) = true := by
      cases flag_exists
      · simp [hs, hd, hfc rfl, List.isEmpty_eq_false, hcand, hu]
      · simp [hs, hd, List.isEmpty_eq_false, hcand, hu]
    rw [hcond]
    simp only [if_pos rfl]
    show load_sent_uids (some (add_sent_uids _ _)) = _
    unfold add_sent_uids
    apply load_after_save
    intro u hu'
    rcases Finset.mem_union.mp hu' with h | h
    · exact hreg u h
    · exact hnew u (List.mem_toFinset.mp h)

/-- Witness for C3: after a real successful dispatch of the single candidate
with uid "7" against a missing registry file, the loaded registry is exactly
{"7"}. -/
theorem registry_mutated_only_on_successful_dispatch_witness :
    load_sent_uids (forward_to_spamcop true false true true [⟨some ['7']⟩] none)
      = load_sent_uids none
        ∪ (List.filterMap Candidate.uid [⟨some ['7']⟩]).toFinset :=
  (registry_mutated_only_on_successful_dispatch true false true true
      [⟨some ['7']⟩] none).2.2.2.2 rfl rfl (fun h => absurd h (by simp))
    (by decide) (by decide) (by simp [load_sent_uids])
